import Mathlib

/-
Verification of the tax-calculator server (`server.js`).

Shallow embedding notes:
- JavaScript numbers are modelled as exact rationals (ℚ). All monetary
  constants in the source are short decimal literals, and every claim under
  scrutiny is about decimal-level values, so the idealisation is faithful for
  the properties proved here.
- HTTP request bodies are modelled as records of optional strings (form
  fields): a missing field is `none`. JS falsiness on a string field is
  `none` or the empty string.
- The JS builtins `parseFloat` / `parseInt` are modelled by simple
  longest-prefix decimal parsers (sign, digits, optional fraction part);
  exponent notation and leading whitespace are not modelled, which no claim
  depends on. An unparseable string maps to `none` (JS `NaN`), and the
  source's `parseFloat(x) || 0` idiom becomes `Option.getD _ 0`.
- The `/calculate-tax` handler has exactly two outcomes for the engine:
  the missing-required-field rejection (HTTP 400) or a computed result, so
  it is modelled as `Option TaxResult`, `none` being the validation error.
  The catch-all 500 branch is unreachable in the model (all operations are
  total). Upload descriptors, the timestamp and the disclaimer are
  pass-through data not touched by any claim and are omitted from the
  result record.
-/

namespace TaxCalc

/-- One row of the 2024 bracket tables: `{ min, max, rate }`.
`max := none` models the source's `Infinity` upper bound. -/
structure Bracket where
  min : ℚ
  max : Option ℚ
  rate : ℚ
deriving DecidableEq, Repr

/-- The `single` bracket table from `calculateTax`. -/
def singleBrackets : List Bracket :=
  [ ⟨0, some 11000, 0.10⟩,
    ⟨11001, some 44725, 0.12⟩,
    ⟨44726, some 95375, 0.22⟩,
    ⟨95376, some 182050, 0.24⟩,
    ⟨182051, some 231250, 0.32⟩,
    ⟨231251, some 578125, 0.35⟩,
    ⟨578126, none, 0.37⟩ ]

/-- The `married` bracket table from `calculateTax`. -/
def marriedBrackets : List Bracket :=
  [ ⟨0, some 22000, 0.10⟩,
    ⟨22001, some 89450, 0.12⟩,
    ⟨89451, some 190750, 0.22⟩,
    ⟨190751, some 364200, 0.24⟩,
    ⟨364201, some 462500, 0.32⟩,
    ⟨462501, some 693750, 0.35⟩,
    ⟨693751, none, 0.37⟩ ]

/-- The `taxBrackets` object lookup: defined keys are `single` and
`married`; any other key yields `undefined` (`none`). -/
def taxBrackets (filingStatus : String) : Option (List Bracket) :=
  if filingStatus = "single" then some singleBrackets
  else if filingStatus = "married" then some marriedBrackets
  else none

/-- `taxableAtThisBracket` of one loop iteration of `calculateTax`:
`Math.min(remainingIncome, bracket.max - bracket.min + 1)`; for the
`Infinity` bracket the width is infinite and the `min` is the remainder. -/
def bracketAmt (b : Bracket) (remaining : ℚ) : ℚ :=
  match b.max with
  | some upper => min remaining (upper - b.min + 1)
  | none => remaining

/-- The `for (const bracket of brackets)` loop of `calculateTax`:
`remainingIncome` starts at the taxable income; each iteration taxes
`taxableAtThisBracket` at the bracket rate when positive, and the loop
breaks once the remainder is non-positive. -/
def bracketLoop : List Bracket → ℚ → ℚ
  | [], _ => 0
  | b :: bs, remaining =>
    if remaining ≤ 0 then 0
    else if 0 < bracketAmt b remaining then
      bracketAmt b remaining * b.rate + bracketLoop bs (remaining - bracketAmt b remaining)
    else bracketLoop bs remaining

/-- JS `Math.round` on the (non-negative) values produced here:
round-half-up, `⌊y + 1/2⌋`. -/
def jsRound (y : ℚ) : ℚ := ((⌊y + 1/2⌋ : ℤ) : ℚ)

/-- `calculateTax(income, filingStatus, deductions)` from the source:
table lookup with fallback to `single`, `taxableIncome = max(0, income -
deductions)`, the bracket loop, then `Math.round(totalTax * 100) / 100`. -/
def calculateTax (income : ℚ) (filingStatus : String) (deductions : ℚ) : ℚ :=
  let brackets := (taxBrackets filingStatus).getD singleBrackets
  let taxableIncome := max 0 (income - deductions)
  let totalTax := bracketLoop brackets taxableIncome
  jsRound (totalTax * 100) / 100

/-- The `standardDeductions` object lookup (defined keys only). -/
def standardDeductions (filingStatus : String) : Option ℚ :=
  if filingStatus = "single" then some 13850
  else if filingStatus = "married" then some 27700
  else if filingStatus = "marriedSeparate" then some 13850
  else if filingStatus = "headOfHousehold" then some 20800
  else none

/-- `calculateStandardDeduction(filingStatus, age)` from the source. -/
def calculateStandardDeduction (filingStatus : String) (age : ℤ) : ℚ :=
  let deduction := (standardDeductions filingStatus).getD 13850
  if 65 ≤ age then
    deduction + (if filingStatus = "married" then 1500 else 1850)
  else deduction

/-- One row of the `eitcLimits` object: `{ single, married, credit }`. -/
structure EITCRow where
  single : ℚ
  married : ℚ
  credit : ℚ
deriving DecidableEq, Repr

/-- The `eitcLimits` object lookup: rows exist for keys 0..3 only. -/
def eitcLimits (childCount : ℤ) : Option EITCRow :=
  if childCount = 0 then some ⟨17640, 23260, 600⟩
  else if childCount = 1 then some ⟨46560, 52918, 3995⟩
  else if childCount = 2 then some ⟨51567, 58250, 6604⟩
  else if childCount = 3 then some ⟨55529, 62044, 7430⟩
  else none

/-- `calculateEITC(income, filingStatus, children)` from the source:
`childCount = Math.min(children, 3)`, row lookup (missing row ⇒ 0),
married/other ceiling choice, `income > incomeLimit ⇒ 0`, else the flat
credit. -/
def calculateEITC (income : ℚ) (filingStatus : String) (children : ℤ) : ℚ :=
  let childCount := min children 3
  match eitcLimits childCount with
  | none => 0
  | some limits =>
    let incomeLimit := if filingStatus = "married" then limits.married else limits.single
    if income > incomeLimit then 0 else limits.credit

/-- Numeric value of one decimal digit character. -/
def digitVal (c : Char) : ℕ := c.toNat - 48

/-- Value of a digit run, most significant first. -/
def digitsVal (ds : List Char) : ℕ := ds.foldl (fun n c => 10 * n + digitVal c) 0

/-- Modelled from the JS builtin `parseFloat` (unsigned part): a leading
digit run, optionally followed by a point and a fraction digit run; at
least one digit must be present, otherwise the result is `NaN` (`none`).
Trailing junk is ignored, as JS does. -/
def parseUnsigned (cs : List Char) : Option ℚ :=
  let ds := cs.takeWhile Char.isDigit
  match cs.dropWhile Char.isDigit with
  | '.' :: rest =>
    let fd := rest.takeWhile Char.isDigit
    if ds.isEmpty && fd.isEmpty then none
    else some ((digitsVal ds : ℚ) + (digitsVal fd : ℚ) / (10 : ℚ) ^ fd.length)
  | _ => if ds.isEmpty then none else some (digitsVal ds)

/-- Modelled from the JS builtin `parseFloat`: optional sign, then the
unsigned parse. -/
def parseFloatJS (s : String) : Option ℚ :=
  match s.toList with
  | '-' :: cs => (parseUnsigned cs).map (fun q => -q)
  | '+' :: cs => parseUnsigned cs
  | cs => parseUnsigned cs

/-- Modelled from the JS builtin `parseInt` (radix 10): optional sign, then
a leading digit run; no digits ⇒ `NaN` (`none`). -/
def parseIntJS (s : String) : Option ℤ :=
  match s.toList with
  | '-' :: cs =>
    let ds := cs.takeWhile Char.isDigit
    if ds.isEmpty then none else some (-(digitsVal ds : ℤ))
  | '+' :: cs =>
    let ds := cs.takeWhile Char.isDigit
    if ds.isEmpty then none else some (digitsVal ds)
  | cs =>
    let ds := cs.takeWhile Char.isDigit
    if ds.isEmpty then none else some (digitsVal ds)

/-- The `parseFloat(field) || 0` idiom on an optional form field. -/
def jsNumOr0 (o : Option String) : ℚ := (o.bind parseFloatJS).getD 0

/-- The `parseInt(field) || 0` idiom on an optional form field. -/
def jsIntOr0 (o : Option String) : ℤ := (o.bind parseIntJS).getD 0

/-- JS falsiness of an optional string field: missing (`undefined`) or the
empty string. -/
def jsFalsy (o : Option String) : Bool :=
  match o with
  | none => true
  | some s => s == ""

/-- The request body of `/calculate-tax`, as destructured on entry: every
field is an optional form string. -/
structure TaxRequest where
  filingStatus : Option String
  income : Option String
  age : Option String
  dependents : Option String
  itemizedDeductions : Option String
  useStandardDeduction : Option String
  w2Income : Option String
  selfEmploymentIncome : Option String
  interestIncome : Option String
  dividendIncome : Option String
  capitalGains : Option String
  otherIncome : Option String

/-- The computed response of `/calculate-tax` (the fields of the `result`
object that carry engine output). -/
structure TaxResult where
  taxYear : ℕ
  filingStatus : String
  age : ℤ
  dependents : ℤ
  totalGrossIncome : ℚ
  primary : ℚ
  w2 : ℚ
  selfEmployment : ℚ
  interest : ℚ
  dividends : ℚ
  capitalGains : ℚ
  other : ℚ
  standardDeduction : ℚ
  itemizedDeductions : ℚ
  deductionUsed : ℚ
  deductionType : String
  taxableIncome : ℚ
  federalIncomeTax : ℚ
  selfEmploymentTax : ℚ
  earnedIncomeCredit : ℚ
  totalTaxLiability : ℚ
  estimatedWithholding : ℚ
  refundAmount : ℚ
  refundType : String

/-- The computation body of the `/calculate-tax` handler after validation
has passed (source lines 144-234), transcribed statement by statement. -/
def buildResult (fs : String) (req : TaxRequest) : TaxResult :=
  let totalIncome := jsNumOr0 req.income
  let userAge := jsIntOr0 req.age
  let numDependents := jsIntOr0 req.dependents
  let itemizedDeductionAmount := jsNumOr0 req.itemizedDeductions
  let w2 := jsNumOr0 req.w2Income
  let selfEmployment := jsNumOr0 req.selfEmploymentIncome
  let interest := jsNumOr0 req.interestIncome
  let dividends := jsNumOr0 req.dividendIncome
  let capitalGains := jsNumOr0 req.capitalGains
  let other := jsNumOr0 req.otherIncome
  let totalGrossIncome :=
    totalIncome + w2 + selfEmployment + interest + dividends + capitalGains + other
  let standardDeduction := calculateStandardDeduction fs userAge
  let deductionAmount :=
    if req.useStandardDeduction = some ("false") then
      max itemizedDeductionAmount standardDeduction
    else standardDeduction
  let federalTax := calculateTax totalGrossIncome fs deductionAmount
  let eitc := calculateEITC totalGrossIncome fs numDependents
  let selfEmploymentTax := selfEmployment * 0.1413
  let totalTaxLiability := federalTax + selfEmploymentTax - eitc
  let estimatedWithholding := w2 * 0.20
  let refundOrOwed := estimatedWithholding - totalTaxLiability
  { taxYear := 2024
    filingStatus := fs
    age := userAge
    dependents := numDependents
    totalGrossIncome := totalGrossIncome
    primary := totalIncome
    w2 := w2
    selfEmployment := selfEmployment
    interest := interest
    dividends := dividends
    capitalGains := capitalGains
    other := other
    standardDeduction := standardDeduction
    itemizedDeductions := itemizedDeductionAmount
    deductionUsed := deductionAmount
    deductionType := if req.useStandardDeduction = some ("false") then "itemized" else "standard"
    taxableIncome := max 0 (totalGrossIncome - deductionAmount)
    federalIncomeTax := federalTax
    selfEmploymentTax := selfEmploymentTax
    earnedIncomeCredit := eitc
    totalTaxLiability := max 0 totalTaxLiability
    estimatedWithholding := estimatedWithholding
    refundAmount := refundOrOwed
    refundType := if 0 ≤ refundOrOwed then "refund" else "owed" }

/-- The `/calculate-tax` handler: the `!filingStatus || !income` guard
returns the 400 validation error (`none`), otherwise the computed result. -/
def calcEndpoint (req : TaxRequest) : Option TaxResult :=
  if jsFalsy req.filingStatus || jsFalsy req.income then none
  else some (buildResult (req.filingStatus.getD "") req)

/-! ### Specification-side definitions

These follow the wording of the specification and of the claims, to be
compared with the definitions transcribed from the source above. -/

/-- Written from the spec's wording in §4.2: the result "is rounded to 2
decimal places (round-half-up on the cent)". -/
def specRoundCents (x : ℚ) : ℚ := ((⌊x * 100 + 1/2⌋ : ℤ) : ℚ) / 100

/-- Written from claim C4's wording: walk the ordered bracket table,
"accumulating, for each bracket in ascending order, min(remainingIncome,
upperBound − lowerBound + 1) taxed at that bracket's rate", stopping once
remaining income reaches 0, with income beyond all finite brackets "taxed
at the top (unbounded) bracket's rate for the remainder". -/
def specBracketWalk : List Bracket → ℚ → ℚ
  | [], _ => 0
  | b :: bs, remaining =>
    if remaining ≤ 0 then 0
    else
      match b.max with
      | some upper =>
        min remaining (upper - b.min + 1) * b.rate +
          specBracketWalk bs (remaining - min remaining (upper - b.min + 1))
      | none => remaining * b.rate

/-- Written from claim C4's wording: taxable income is
max(0, income − deductions); "the married bracket table for married and
the single table for every other status (including marriedSeparate and
headOfHousehold)"; then the spec walk, rounded half-up to cents. -/
def specCalculateTax (income : ℚ) (filingStatus : String) (deductions : ℚ) : ℚ :=
  let table := if filingStatus = "married" then marriedBrackets else singleBrackets
  specRoundCents (specBracketWalk table (max 0 (income - deductions)))

/-- Written from claim C5's wording: the EITC "is computed by clamping the
count to [0,3]", then selecting the stated row, applying the married
ceiling for married and the single ceiling otherwise, paying the flat
credit at or below the ceiling and 0 above it. -/
def claimedEITC (income : ℚ) (filingStatus : String) (children : ℤ) : ℚ :=
  let c := min (max children 0) 3
  let row : EITCRow :=
    if c = 0 then ⟨17640, 23260, 600⟩
    else if c = 1 then ⟨46560, 52918, 3995⟩
    else if c = 2 then ⟨51567, 58250, 6604⟩
    else ⟨55529, 62044, 7430⟩
  let ceiling := if filingStatus = "married" then row.married else row.single
  if income ≤ ceiling then row.credit else 0

/-- The amended EITC description (claim C5 corrected): counts above 3 are
clamped to 3, but a negative count selects no row at all and yields 0
rather than being clamped up to the 0-children row. -/
def amendedEITC (income : ℚ) (filingStatus : String) (children : ℤ) : ℚ :=
  if children < 0 then 0
  else
    let c := min children 3
    let row : EITCRow :=
      if c = 0 then ⟨17640, 23260, 600⟩
      else if c = 1 then ⟨46560, 52918, 3995⟩
      else if c = 2 then ⟨51567, 58250, 6604⟩
      else ⟨55529, 62044, 7430⟩
    let ceiling := if filingStatus = "married" then row.married else row.single
    if income ≤ ceiling then row.credit else 0

/-! ### Bracket-table well-formedness and loop lemmas -/

/-- Well-formedness of a bracket table: rates lie in `[0, R]` and every
finite bracket has positive width. Both source tables satisfy this with
`R = 0.37`. -/
def GoodTable (R : ℚ) (bs : List Bracket) : Prop :=
  ∀ b ∈ bs, 0 ≤ b.rate ∧ b.rate ≤ R ∧ ∀ M, b.max = some M → 0 < M - b.min + 1

lemma goodTable_tail {R : ℚ} {b : Bracket} {bs : List Bracket}
    (h : GoodTable R (b :: bs)) : GoodTable R bs :=
  fun x hx => h x (List.mem_cons_of_mem _ hx)

lemma goodTable_head {R : ℚ} {b : Bracket} {bs : List Bracket}
    (h : GoodTable R (b :: bs)) :
    0 ≤ b.rate ∧ b.rate ≤ R ∧ ∀ M, b.max = some M → 0 < M - b.min + 1 :=
  h b (List.mem_cons_self _ _)

lemma singleBrackets_good : GoodTable (37/100) singleBrackets := by
  intro b hb
  simp only [singleBrackets, List.mem_cons, List.not_mem_nil, or_false] at hb
  rcases hb with rfl | rfl | rfl | rfl | rfl | rfl | rfl <;>
    refine ⟨by norm_num, by norm_num, fun M hM => ?_⟩ <;>
    first
      | (cases hM; norm_num)
      | cases hM

lemma marriedBrackets_good : GoodTable (37/100) marriedBrackets := by
  intro b hb
  simp only [marriedBrackets, List.mem_cons, List.not_mem_nil, or_false] at hb
  rcases hb with rfl | rfl | rfl | rfl | rfl | rfl | rfl <;>
    refine ⟨by norm_num, by norm_num, fun M hM => ?_⟩ <;>
    first
      | (cases hM; norm_num)
      | cases hM

lemma brackets_lookup (fs : String) :
    (taxBrackets fs).getD singleBrackets =
      if fs = "married" then marriedBrackets else singleBrackets := by
  unfold taxBrackets
  by_cases h1 : fs = "single"
  · subst h1; simp
  · by_cases h2 : fs = "married" <;> simp [h1, h2]

lemma goodTable_lookup (fs : String) :
    GoodTable (37/100) ((taxBrackets fs).getD singleBrackets) := by
  rw [brackets_lookup]
  split
  · exact marriedBrackets_good
  · exact singleBrackets_good

lemma bracketAmt_some {b : Bracket} {M : ℚ} (h : b.max = some M) (t : ℚ) :
    bracketAmt b t = min t (M - b.min + 1) := by
  simp [bracketAmt, h]

lemma bracketAmt_none {b : Bracket} (h : b.max = none) (t : ℚ) :
    bracketAmt b t = t := by
  simp [bracketAmt, h]

lemma bracketLoop_nonpos : ∀ (bs : List Bracket) {t : ℚ}, t ≤ 0 → bracketLoop bs t = 0 := by
  intro bs t ht
  cases bs <;> simp [bracketLoop, ht]

lemma bracketLoop_zero (bs : List Bracket) : bracketLoop bs 0 = 0 :=
  bracketLoop_nonpos bs le_rfl

lemma bracketLoop_nonneg {R : ℚ} :
    ∀ bs : List Bracket, GoodTable R bs → ∀ t : ℚ, 0 ≤ bracketLoop bs t := by
  intro bs
  induction bs with
  | nil => intro _ t; simp [bracketLoop]
  | cons b bs ih =>
    intro hg t
    by_cases ht : t ≤ 0
    · simp [bracketLoop, ht]
    · have h1 := (goodTable_head hg).1
      have ihg := ih (goodTable_tail hg)
      simp only [bracketLoop, if_neg ht]
      by_cases ha : 0 < bracketAmt b t
      · rw [if_pos ha]
        have h2 := ihg (t - bracketAmt b t)
        have h3 : 0 ≤ bracketAmt b t * b.rate := mul_nonneg (le_of_lt ha) h1
        linarith
      · rw [if_neg ha]
        exact ihg t

lemma bracketLoop_mono {R : ℚ} :
    ∀ bs : List Bracket, GoodTable R bs → ∀ t u : ℚ, t ≤ u →
      bracketLoop bs t ≤ bracketLoop bs u := by
  intro bs
  induction bs with
  | nil => intro _ t u _; simp [bracketLoop]
  | cons b bs ih =>
    intro hg t u htu
    obtain ⟨hr0, hrR, hw⟩ := goodTable_head hg
    have ihg := ih (goodTable_tail hg)
    by_cases hu : u ≤ 0
    · rw [bracketLoop_nonpos _ (le_trans htu hu), bracketLoop_nonpos _ hu]
    · by_cases ht : t ≤ 0
      · rw [bracketLoop_nonpos _ ht]
        exact bracketLoop_nonneg _ hg u
      · push_neg at ht hu
        simp only [bracketLoop, if_neg (not_le.mpr ht), if_neg (not_le.mpr hu)]
        cases hbm : b.max with
        | none =>
          simp only [bracketAmt_none hbm]
          rw [if_pos ht, if_pos hu]
          simp only [sub_self, bracketLoop_zero]
          have := mul_le_mul_of_nonneg_right htu hr0
          linarith
        | some M =>
          have hwM := hw M hbm
          simp only [bracketAmt_some hbm]
          have hat : 0 < min t (M - b.min + 1) := lt_min ht hwM
          have hau : 0 < min u (M - b.min + 1) := lt_min hu hwM
          rw [if_pos hat, if_pos hau]
          have h1 : min t (M - b.min + 1) ≤ min u (M - b.min + 1) :=
            min_le_min htu le_rfl
          have h2 : t - min t (M - b.min + 1) ≤ u - min u (M - b.min + 1) := by
            rcases le_total t (M - b.min + 1) with hc | hc
            · rw [min_eq_left hc]
              have := min_le_left u (M - b.min + 1)
              linarith
            · rw [min_eq_right hc, min_eq_right (le_trans hc htu)]
              linarith
          have h3 := ihg _ _ h2
          have h4 := mul_le_mul_of_nonneg_right h1 hr0
          linarith

lemma bracketLoop_le {R : ℚ} (hR : 0 ≤ R) :
    ∀ bs : List Bracket, GoodTable R bs → ∀ t : ℚ, 0 ≤ t →
      bracketLoop bs t ≤ R * t := by
  intro bs
  induction bs with
  | nil => intro _ t ht; simpa [bracketLoop] using mul_nonneg hR ht
  | cons b bs ih =>
    intro hg t ht
    obtain ⟨hr0, hrR, hw⟩ := goodTable_head hg
    have ihg := ih (goodTable_tail hg)
    by_cases ht0 : t ≤ 0
    · rw [bracketLoop_nonpos _ ht0]
      exact mul_nonneg hR ht
    · push_neg at ht0
      simp only [bracketLoop, if_neg (not_le.mpr ht0)]
      by_cases ha : 0 < bracketAmt b t
      · rw [if_pos ha]
        have hamt_le : bracketAmt b t ≤ t := by
          cases hbm : b.max with
          | none => rw [bracketAmt_none hbm]
          | some M => rw [bracketAmt_some hbm]; exact min_le_left _ _
        have h2 : bracketLoop bs (t - bracketAmt b t) ≤ R * (t - bracketAmt b t) :=
          ihg _ (by linarith)
        have h3 : bracketAmt b t * b.rate ≤ bracketAmt b t * R :=
          mul_le_mul_of_nonneg_left hrR (le_of_lt ha)
        have h4 : bracketAmt b t * R + R * (t - bracketAmt b t) = R * t := by ring
        linarith
      · rw [if_neg ha]
        exact ihg t ht

lemma bracketLoop_lipschitz {R : ℚ} (hR : 0 ≤ R) :
    ∀ bs : List Bracket, GoodTable R bs → ∀ t u : ℚ, 0 ≤ t → t ≤ u →
      bracketLoop bs u - bracketLoop bs t ≤ R * (u - t) := by
  intro bs
  induction bs with
  | nil =>
    intro _ t u _ htu
    simpa [bracketLoop] using mul_nonneg hR (by linarith : (0:ℚ) ≤ u - t)
  | cons b bs ih =>
    intro hg t u ht htu
    obtain ⟨hr0, hrR, hw⟩ := goodTable_head hg
    have ihg := ih (goodTable_tail hg)
    by_cases hu0 : u ≤ 0
    · rw [bracketLoop_nonpos _ hu0, bracketLoop_nonpos _ (le_trans htu hu0)]
      simpa using mul_nonneg hR (by linarith : (0:ℚ) ≤ u - t)
    · push_neg at hu0
      by_cases ht0 : t ≤ 0
      · have htz : t = 0 := le_antisymm ht0 ht
        subst htz
        rw [bracketLoop_zero]
        have := bracketLoop_le hR (b :: bs) hg u (le_of_lt hu0)
        simpa using this
      · push_neg at ht0
        simp only [bracketLoop, if_neg (not_le.mpr ht0), if_neg (not_le.mpr hu0)]
        cases hbm : b.max with
        | none =>
          simp only [bracketAmt_none hbm]
          rw [if_pos ht0, if_pos hu0]
          simp only [sub_self, bracketLoop_zero]
          have h4 : (u - t) * b.rate ≤ (u - t) * R :=
            mul_le_mul_of_nonneg_left hrR (by linarith)
          have h5 : u * b.rate + 0 - (t * b.rate + 0) = (u - t) * b.rate := by ring
          have h6 : (u - t) * R = R * (u - t) := mul_comm _ _
          linarith
        | some M =>
          have hwM := hw M hbm
          simp only [bracketAmt_some hbm]
          set c := M - b.min + 1 with hc
          have hat : 0 < min t c := lt_min ht0 hwM
          have hau : 0 < min u c := lt_min hu0 hwM
          rw [if_pos hat, if_pos hau]
          have h1 : min t c ≤ min u c := min_le_min htu le_rfl
          have h0a : 0 ≤ t - min t c := by
            have := min_le_left t c
            linarith
          have h2 : t - min t c ≤ u - min u c := by
            rcases le_total t c with hcase | hcase
            · rw [min_eq_left hcase]
              have := min_le_left u c
              linarith
            · rw [min_eq_right hcase, min_eq_right (le_trans hcase htu)]
              linarith
          have hIH := ihg _ _ h0a h2
          have h3 : (min u c - min t c) * b.rate ≤ (min u c - min t c) * R :=
            mul_le_mul_of_nonneg_left hrR (by linarith)
          have e1 : min u c * b.rate - min t c * b.rate = (min u c - min t c) * b.rate := by
            ring
          have e2 : R * ((u - min u c) - (t - min t c)) =
              R * (u - t) - (min u c - min t c) * R := by
            ring
          linarith

lemma bracketLoop_eq_spec {R : ℚ} :
    ∀ bs : List Bracket, GoodTable R bs → ∀ t : ℚ,
      bracketLoop bs t = specBracketWalk bs t := by
  intro bs
  induction bs with
  | nil => intro _ t; rfl
  | cons b bs ih =>
    intro hg t
    obtain ⟨hr0, hrR, hw⟩ := goodTable_head hg
    have ihg := ih (goodTable_tail hg)
    by_cases ht : t ≤ 0
    · simp [bracketLoop, specBracketWalk, ht]
    · push_neg at ht
      simp only [bracketLoop, specBracketWalk, if_neg (not_le.mpr ht)]
      cases hbm : b.max with
      | none =>
        simp only [bracketAmt_none hbm]
        rw [if_pos ht]
        simp [bracketLoop_zero]
      | some M =>
        have hwM := hw M hbm
        simp only [bracketAmt_some hbm]
        rw [if_pos (lt_min ht hwM), ihg]

/-- Shape of a bracket table whose finite brackets have total width `W`
and total full-bracket tax `C`, ending in one unbounded bracket of rate
`R`: exactly the shape of both source tables. -/
inductive TopShape : List Bracket → ℚ → ℚ → ℚ → Prop where
  | last : ∀ m r : ℚ, TopShape [⟨m, none, r⟩] 0 0 r
  | cons : ∀ (m M r : ℚ) (bs : List Bracket) (C W R : ℚ),
      0 < M - m + 1 → TopShape bs C W R →
      TopShape (⟨m, some M, r⟩ :: bs) ((M - m + 1) * r + C) ((M - m + 1) + W) R

lemma TopShape.w_nonneg : ∀ {bs : List Bracket} {C W R : ℚ}, TopShape bs C W R → 0 ≤ W := by
  intro bs C W R h
  induction h with
  | last m r => exact le_rfl
  | cons m M r bs C W R hwM hshape ih => linarith

lemma bracketLoop_top :
    ∀ {bs : List Bracket} {C W R : ℚ}, TopShape bs C W R → ∀ t : ℚ, W ≤ t →
      bracketLoop bs t = C + R * (t - W) := by
  intro bs C W R h
  induction h with
  | last m r =>
    intro t ht
    by_cases ht0 : t ≤ 0
    · have htz : t = 0 := le_antisymm ht0 ht
      subst htz
      simp [bracketLoop]
    · push_neg at ht0
      simp only [bracketLoop, if_neg (not_le.mpr ht0)]
      rw [bracketAmt_none rfl, if_pos ht0]
      exact (by ring : t * r + 0 = 0 + r * (t - 0))
  | cons m M r bs C W R hwM hshape ih =>
    intro t ht
    have hW0 : 0 ≤ W := hshape.w_nonneg
    have ht0 : 0 < t := by linarith
    simp only [bracketLoop, if_neg (not_le.mpr ht0)]
    rw [bracketAmt_some rfl]
    simp only
    have hmin : min t (M - m + 1) = M - m + 1 := min_eq_right (by linarith)
    rw [hmin, if_pos (by linarith : (0:ℚ) < M - m + 1), ih (t - (M - m + 1)) (by linarith)]
    ring

lemma singleTopShape :
    TopShape singleBrackets (17424235/100) 578126 (37/100) := by
  have h :=
    TopShape.cons 0 11000 0.10 _ _ _ _ (by norm_num)
      (TopShape.cons 11001 44725 0.12 _ _ _ _ (by norm_num)
        (TopShape.cons 44726 95375 0.22 _ _ _ _ (by norm_num)
          (TopShape.cons 95376 182050 0.24 _ _ _ _ (by norm_num)
            (TopShape.cons 182051 231250 0.32 _ _ _ _ (by norm_num)
              (TopShape.cons 231251 578125 0.35 _ _ _ _ (by norm_num)
                (TopShape.last 578126 0.37))))))
  unfold singleBrackets
  convert h using 1 <;> norm_num

lemma marriedTopShape :
    TopShape marriedBrackets (1866016/10) 693751 (37/100) := by
  have h :=
    TopShape.cons 0 22000 0.10 _ _ _ _ (by norm_num)
      (TopShape.cons 22001 89450 0.12 _ _ _ _ (by norm_num)
        (TopShape.cons 89451 190750 0.22 _ _ _ _ (by norm_num)
          (TopShape.cons 190751 364200 0.24 _ _ _ _ (by norm_num)
            (TopShape.cons 364201 462500 0.32 _ _ _ _ (by norm_num)
              (TopShape.cons 462501 693750 0.35 _ _ _ _ (by norm_num)
                (TopShape.last 693751 0.37))))))
  unfold marriedBrackets
  convert h using 1 <;> norm_num

/-! ### Rounding lemmas and endpoint inversion -/

lemma specRoundCents_nonneg {x : ℚ} (hx : 0 ≤ x) : 0 ≤ specRoundCents x := by
  unfold specRoundCents
  have h1 : (0:ℤ) ≤ ⌊x * 100 + 1/2⌋ := by
    apply Int.le_floor.mpr
    push_cast
    linarith
  have h2 : (0:ℚ) ≤ ((⌊x * 100 + 1/2⌋ : ℤ) : ℚ) := by exact_mod_cast h1
  exact div_nonneg h2 (by norm_num)

lemma specRoundCents_mono {x y : ℚ} (h : x ≤ y) : specRoundCents x ≤ specRoundCents y := by
  unfold specRoundCents
  have h1 : ⌊x * 100 + 1/2⌋ ≤ ⌊y * 100 + 1/2⌋ := Int.floor_le_floor (by linarith)
  have h2 : ((⌊x * 100 + 1/2⌋ : ℤ) : ℚ) ≤ ((⌊y * 100 + 1/2⌋ : ℤ) : ℚ) := by exact_mod_cast h1
  linarith

lemma specRoundCents_lip (x y : ℚ) :
    specRoundCents y - specRoundCents x ≤ (y - x) + 1/100 := by
  unfold specRoundCents
  have h1 : ((⌊y * 100 + 1/2⌋ : ℤ) : ℚ) ≤ y * 100 + 1/2 := Int.floor_le _
  have h2 : x * 100 + 1/2 < ((⌊x * 100 + 1/2⌋ : ℤ) : ℚ) + 1 := Int.lt_floor_add_one _
  linarith

/-- `calculateTax` is `specRoundCents` applied to the bracket loop. -/
lemma calculateTax_eq_round (income : ℚ) (fs : String) (ded : ℚ) :
    calculateTax income fs ded =
      specRoundCents (bracketLoop ((taxBrackets fs).getD singleBrackets)
        (max 0 (income - ded))) := rfl

lemma jsFalsy_eq_true_iff (o : Option String) :
    jsFalsy o = true ↔ (o = none ∨ o = some "") := by
  cases o with
  | none => simp [jsFalsy]
  | some s => simp [jsFalsy]

lemma calcEndpoint_some {req : TaxRequest} {r : TaxResult}
    (h : calcEndpoint req = some r) :
    r = buildResult (req.filingStatus.getD "") req := by
  unfold calcEndpoint at h
  by_cases hb : (jsFalsy req.filingStatus || jsFalsy req.income) = true
  · rw [if_pos hb] at h
    cases h
  · rw [if_neg hb] at h
    exact (Option.some.inj h).symm

/-! ### Concrete requests used by scenario claims, counterexamples and
witnesses -/

/-- The married scenario of the spec (§8): income "0", w2Income "30000",
selfEmploymentIncome "0", two dependents. -/
def reqMarriedKids : TaxRequest :=
  { filingStatus := some ("married"), income := some ("0"), age := none,
    dependents := some ("2"), itemizedDeductions := none, useStandardDeduction := none,
    w2Income := some ("30000"), selfEmploymentIncome := some ("0"),
    interestIncome := none, dividendIncome := none, capitalGains := none,
    otherIncome := none }

/-- The single scenario of the spec (§8): income "50000", age "30",
no dependents. -/
def reqSingle50k : TaxRequest :=
  { filingStatus := some ("single"), income := some ("50000"), age := some ("30"),
    dependents := some ("0"), itemizedDeductions := none, useStandardDeduction := none,
    w2Income := none, selfEmploymentIncome := none,
    interestIncome := none, dividendIncome := none, capitalGains := none,
    otherIncome := none }

/-- A request whose filingStatus is present but empty: both mandatory
fields are supplied, yet the falsiness check rejects it. -/
def reqEmptyStatus : TaxRequest :=
  { filingStatus := some (""), income := some ("50000"), age := none,
    dependents := none, itemizedDeductions := none, useStandardDeduction := none,
    w2Income := none, selfEmploymentIncome := none,
    interestIncome := none, dividendIncome := none, capitalGains := none,
    otherIncome := none }

/-- A request supplying a negative w2Income string. -/
def reqNegW2 : TaxRequest :=
  { filingStatus := some ("single"), income := some ("100"), age := none,
    dependents := none, itemizedDeductions := none, useStandardDeduction := none,
    w2Income := some ("-5"), selfEmploymentIncome := none,
    interestIncome := none, dividendIncome := none, capitalGains := none,
    otherIncome := none }

/-- A request electing itemized deductions (flag "false") with a small
itemized amount. -/
def reqItemizedSmall : TaxRequest :=
  { filingStatus := some ("single"), income := some ("50000"), age := none,
    dependents := none, itemizedDeductions := some ("5000"),
    useStandardDeduction := some ("false"),
    w2Income := none, selfEmploymentIncome := none,
    interestIncome := none, dividendIncome := none, capitalGains := none,
    otherIncome := none }

/-- A request with one unit of self-employment income, whose flat-rate
self-employment tax 0.1413 is not a whole number of cents. -/
def reqSelfEmp1 : TaxRequest :=
  { filingStatus := some ("single"), income := some ("100"), age := none,
    dependents := none, itemizedDeductions := none, useStandardDeduction := none,
    w2Income := some ("10"), selfEmploymentIncome := some ("1"),
    interestIncome := none, dividendIncome := none, capitalGains := none,
    otherIncome := none }

/-! ### Field equations of the computed result

Each lemma restates one field of `buildResult` in terms of the other
fields or of the parsed inputs; all hold definitionally. -/

lemma buildResult_filingStatus (fs : String) (req : TaxRequest) :
    (buildResult fs req).filingStatus = fs := rfl

lemma buildResult_age (fs : String) (req : TaxRequest) :
    (buildResult fs req).age = jsIntOr0 req.age := rfl

lemma buildResult_dependents (fs : String) (req : TaxRequest) :
    (buildResult fs req).dependents = jsIntOr0 req.dependents := rfl

lemma buildResult_primary (fs : String) (req : TaxRequest) :
    (buildResult fs req).primary = jsNumOr0 req.income := rfl

lemma buildResult_w2 (fs : String) (req : TaxRequest) :
    (buildResult fs req).w2 = jsNumOr0 req.w2Income := rfl

lemma buildResult_selfEmployment (fs : String) (req : TaxRequest) :
    (buildResult fs req).selfEmployment = jsNumOr0 req.selfEmploymentIncome := rfl

lemma buildResult_interest (fs : String) (req : TaxRequest) :
    (buildResult fs req).interest = jsNumOr0 req.interestIncome := rfl

lemma buildResult_dividends (fs : String) (req : TaxRequest) :
    (buildResult fs req).dividends = jsNumOr0 req.dividendIncome := rfl

lemma buildResult_capitalGains (fs : String) (req : TaxRequest) :
    (buildResult fs req).capitalGains = jsNumOr0 req.capitalGains := rfl

lemma buildResult_other (fs : String) (req : TaxRequest) :
    (buildResult fs req).other = jsNumOr0 req.otherIncome := rfl

lemma buildResult_totalGrossIncome (fs : String) (req : TaxRequest) :
    (buildResult fs req).totalGrossIncome =
      jsNumOr0 req.income + jsNumOr0 req.w2Income + jsNumOr0 req.selfEmploymentIncome +
        jsNumOr0 req.interestIncome + jsNumOr0 req.dividendIncome +
        jsNumOr0 req.capitalGains + jsNumOr0 req.otherIncome := rfl

lemma buildResult_standardDeduction (fs : String) (req : TaxRequest) :
    (buildResult fs req).standardDeduction =
      calculateStandardDeduction fs (jsIntOr0 req.age) := rfl

lemma buildResult_itemizedDeductions (fs : String) (req : TaxRequest) :
    (buildResult fs req).itemizedDeductions = jsNumOr0 req.itemizedDeductions := rfl

lemma buildResult_deductionUsed (fs : String) (req : TaxRequest) :
    (buildResult fs req).deductionUsed =
      (if req.useStandardDeduction = some ("false") then
        max (buildResult fs req).itemizedDeductions (buildResult fs req).standardDeduction
      else (buildResult fs req).standardDeduction) := rfl

lemma buildResult_taxableIncome (fs : String) (req : TaxRequest) :
    (buildResult fs req).taxableIncome =
      max 0 ((buildResult fs req).totalGrossIncome - (buildResult fs req).deductionUsed) := rfl

lemma buildResult_federalIncomeTax (fs : String) (req : TaxRequest) :
    (buildResult fs req).federalIncomeTax =
      calculateTax (buildResult fs req).totalGrossIncome fs
        (buildResult fs req).deductionUsed := rfl

lemma buildResult_earnedIncomeCredit (fs : String) (req : TaxRequest) :
    (buildResult fs req).earnedIncomeCredit =
      calculateEITC (buildResult fs req).totalGrossIncome fs
        (buildResult fs req).dependents := rfl

lemma buildResult_selfEmploymentTax (fs : String) (req : TaxRequest) :
    (buildResult fs req).selfEmploymentTax =
      (buildResult fs req).selfEmployment * 0.1413 := rfl

lemma buildResult_totalTaxLiability (fs : String) (req : TaxRequest) :
    (buildResult fs req).totalTaxLiability =
      max 0 ((buildResult fs req).federalIncomeTax +
        (buildResult fs req).selfEmploymentTax -
        (buildResult fs req).earnedIncomeCredit) := rfl

lemma buildResult_estimatedWithholding (fs : String) (req : TaxRequest) :
    (buildResult fs req).estimatedWithholding = (buildResult fs req).w2 * 0.20 := rfl

lemma buildResult_refundAmount (fs : String) (req : TaxRequest) :
    (buildResult fs req).refundAmount =
      (buildResult fs req).estimatedWithholding -
        ((buildResult fs req).federalIncomeTax +
          (buildResult fs req).selfEmploymentTax -
          (buildResult fs req).earnedIncomeCredit) := rfl

lemma buildResult_refundType (fs : String) (req : TaxRequest) :
    (buildResult fs req).refundType =
      (if 0 ≤ (buildResult fs req).refundAmount then "refund" else "owed") := rfl

/-! ### Assembled facts about calculateTax -/

lemma specRoundCents_zero : specRoundCents 0 = 0 := by
  norm_num [specRoundCents]

lemma calculateTax_nonneg (income : ℚ) (fs : String) (ded : ℚ) :
    0 ≤ calculateTax income fs ded := by
  rw [calculateTax_eq_round]
  exact specRoundCents_nonneg (bracketLoop_nonneg _ (goodTable_lookup fs) _)

lemma calculateTax_mono (fs : String) (ded : ℚ) {t u : ℚ} (h : t ≤ u) :
    calculateTax t fs ded ≤ calculateTax u fs ded := by
  rw [calculateTax_eq_round, calculateTax_eq_round]
  exact specRoundCents_mono
    (bracketLoop_mono _ (goodTable_lookup fs) _ _
      (max_le_max le_rfl (by linarith)))

lemma calculateTax_cents (income : ℚ) (fs : String) (ded : ℚ) :
    ∃ n : ℤ, calculateTax income fs ded = (n : ℚ) / 100 :=
  ⟨⌊bracketLoop ((taxBrackets fs).getD singleBrackets) (max 0 (income - ded)) * 100 + 1/2⌋,
    rfl⟩

lemma ite_gt_swap (x L C : ℚ) :
    (if x > L then (0:ℚ) else C) = if x ≤ L then C else 0 := by
  rcases le_or_lt x L with h | h
  · rw [if_neg (not_lt.mpr h), if_pos h]
  · rw [if_pos h, if_neg (not_le.mpr h)]

/-! ### Evaluation of the two spec scenarios -/

lemma marriedScenario_eval :
    (buildResult "married" reqMarriedKids).totalGrossIncome = 30000 ∧
    (buildResult "married" reqMarriedKids).earnedIncomeCredit = 6604 ∧
    (buildResult "married" reqMarriedKids).deductionUsed = 27700 ∧
    (buildResult "married" reqMarriedKids).taxableIncome = 2300 ∧
    (buildResult "married" reqMarriedKids).federalIncomeTax = 230 ∧
    (buildResult "married" reqMarriedKids).totalTaxLiability = 0 ∧
    (buildResult "married" reqMarriedKids).estimatedWithholding = 6000 ∧
    (buildResult "married" reqMarriedKids).refundAmount = 12374 ∧
    (buildResult "married" reqMarriedKids).refundType = "refund" := by
  have hgross : (buildResult "married" reqMarriedKids).totalGrossIncome = 30000 := by
    rw [buildResult_totalGrossIncome,
      show jsNumOr0 reqMarriedKids.income = 0 from rfl,
      show jsNumOr0 reqMarriedKids.w2Income = 30000 from rfl,
      show jsNumOr0 reqMarriedKids.selfEmploymentIncome = 0 from rfl,
      show jsNumOr0 reqMarriedKids.interestIncome = 0 from rfl,
      show jsNumOr0 reqMarriedKids.dividendIncome = 0 from rfl,
      show jsNumOr0 reqMarriedKids.capitalGains = 0 from rfl,
      show jsNumOr0 reqMarriedKids.otherIncome = 0 from rfl]
    norm_num
  have hded : (buildResult "married" reqMarriedKids).deductionUsed = 27700 := by
    rw [buildResult_deductionUsed,
      show reqMarriedKids.useStandardDeduction = none from rfl,
      if_neg (by simp), buildResult_standardDeduction,
      show jsIntOr0 reqMarriedKids.age = 0 from rfl]
    norm_num [calculateStandardDeduction, standardDeductions,
      show ("married" : String) ≠ "single" from by decide]
  have hfed : (buildResult "married" reqMarriedKids).federalIncomeTax = 230 := by
    rw [buildResult_federalIncomeTax, hgross, hded]
    norm_num [calculateTax, taxBrackets, bracketLoop, bracketAmt, singleBrackets,
      marriedBrackets, jsRound, min_def, max_def]
  have heitc : (buildResult "married" reqMarriedKids).earnedIncomeCredit = 6604 := by
    rw [buildResult_earnedIncomeCredit, hgross,
      show (buildResult "married" reqMarriedKids).dependents = 2 from rfl]
    norm_num [calculateEITC, eitcLimits, min_def]
  have hse : (buildResult "married" reqMarriedKids).selfEmploymentTax = 0 := by
    rw [buildResult_selfEmploymentTax,
      show (buildResult "married" reqMarriedKids).selfEmployment = 0 from rfl]
    norm_num
  have hliab : (buildResult "married" reqMarriedKids).totalTaxLiability = 0 := by
    rw [buildResult_totalTaxLiability, hfed, hse, heitc]
    norm_num [max_def]
  have hwh : (buildResult "married" reqMarriedKids).estimatedWithholding = 6000 := by
    rw [buildResult_estimatedWithholding,
      show (buildResult "married" reqMarriedKids).w2 = 30000 from rfl]
    norm_num
  have href : (buildResult "married" reqMarriedKids).refundAmount = 12374 := by
    rw [buildResult_refundAmount, hwh, hfed, hse, heitc]
    norm_num
  have htax : (buildResult "married" reqMarriedKids).taxableIncome = 2300 := by
    rw [buildResult_taxableIncome, hgross, hded]
    norm_num [max_def]
  have htype : (buildResult "married" reqMarriedKids).refundType = "refund" := by
    rw [buildResult_refundType, href]
    norm_num
  exact ⟨hgross, heitc, hded, htax, hfed, hliab, hwh, href, htype⟩

lemma singleScenario_eval :
    (buildResult "single" reqSingle50k).deductionUsed = 13850 ∧
    (buildResult "single" reqSingle50k).taxableIncome = 36150 ∧
    (buildResult "single" reqSingle50k).federalIncomeTax = 411798/100 ∧
    (buildResult "single" reqSingle50k).earnedIncomeCredit = 0 ∧
    (buildResult "single" reqSingle50k).selfEmploymentTax = 0 ∧
    (buildResult "single" reqSingle50k).totalTaxLiability = 411798/100 ∧
    (buildResult "single" reqSingle50k).estimatedWithholding = 0 ∧
    (buildResult "single" reqSingle50k).refundAmount = -(411798/100) ∧
    (buildResult "single" reqSingle50k).refundType = "owed" := by
  have hgross : (buildResult "single" reqSingle50k).totalGrossIncome = 50000 := by
    rw [buildResult_totalGrossIncome,
      show jsNumOr0 reqSingle50k.income = 50000 from rfl,
      show jsNumOr0 reqSingle50k.w2Income = 0 from rfl,
      show jsNumOr0 reqSingle50k.selfEmploymentIncome = 0 from rfl,
      show jsNumOr0 reqSingle50k.interestIncome = 0 from rfl,
      show jsNumOr0 reqSingle50k.dividendIncome = 0 from rfl,
      show jsNumOr0 reqSingle50k.capitalGains = 0 from rfl,
      show jsNumOr0 reqSingle50k.otherIncome = 0 from rfl]
    norm_num
  have hded : (buildResult "single" reqSingle50k).deductionUsed = 13850 := by
    rw [buildResult_deductionUsed,
      show reqSingle50k.useStandardDeduction = none from rfl,
      if_neg (by simp), buildResult_standardDeduction,
      show jsIntOr0 reqSingle50k.age = 30 from rfl]
    norm_num [calculateStandardDeduction, standardDeductions]
  have hfed : (buildResult "single" reqSingle50k).federalIncomeTax = 411798/100 := by
    rw [buildResult_federalIncomeTax, hgross, hded]
    norm_num [calculateTax, taxBrackets, bracketLoop, bracketAmt, singleBrackets,
      marriedBrackets, jsRound, min_def, max_def]
  have heitc : (buildResult "single" reqSingle50k).earnedIncomeCredit = 0 := by
    rw [buildResult_earnedIncomeCredit, hgross,
      show (buildResult "single" reqSingle50k).dependents = 0 from rfl]
    norm_num [calculateEITC, eitcLimits, min_def,
      show ("single" : String) ≠ "married" from by decide]
  have hse : (buildResult "single" reqSingle50k).selfEmploymentTax = 0 := by
    rw [buildResult_selfEmploymentTax,
      show (buildResult "single" reqSingle50k).selfEmployment = 0 from rfl]
    norm_num
  have hliab : (buildResult "single" reqSingle50k).totalTaxLiability = 411798/100 := by
    rw [buildResult_totalTaxLiability, hfed, hse, heitc]
    norm_num [max_def]
  have hwh : (buildResult "single" reqSingle50k).estimatedWithholding = 0 := by
    rw [buildResult_estimatedWithholding,
      show (buildResult "single" reqSingle50k).w2 = 0 from rfl]
    norm_num
  have href : (buildResult "single" reqSingle50k).refundAmount = -(411798/100) := by
    rw [buildResult_refundAmount, hwh, hfed, hse, heitc]
    norm_num
  have htax : (buildResult "single" reqSingle50k).taxableIncome = 36150 := by
    rw [buildResult_taxableIncome, hgross, hded]
    norm_num [max_def]
  have htype : (buildResult "single" reqSingle50k).refundType = "owed" := by
    rw [buildResult_refundType, href]
    norm_num
  exact ⟨hded, htax, hfed, heitc, hse, hliab, hwh, href, htype⟩

/-! ### Claims -/

/-- Claim C1 counterexample: on the married scenario request the reported
(clamped) liability is 0 and the withholding 6000, yet refundOrOwed is
12374 — not 6000 − 0 — because the source computes it from the unclamped
liability. -/
theorem claim_C1_cx :
    ∃ r, calcEndpoint reqMarriedKids = some r ∧
      r.totalTaxLiability = 0 ∧ r.estimatedWithholding = 6000 ∧
      r.refundAmount = 12374 ∧
      r.refundAmount ≠ r.estimatedWithholding - r.totalTaxLiability := by
  obtain ⟨_, _, _, _, _, hliab, hwh, href, _⟩ := marriedScenario_eval
  refine ⟨buildResult "married" reqMarriedKids, rfl, hliab, hwh, href, ?_⟩
  rw [hliab, hwh, href]
  norm_num

/-- Claim C1 (amended, corrected): for every request passing validation,
the reported totalTaxLiability is max(0, federalTax + selfEmploymentTax −
eitc) and the type tag is "refund" iff refundOrOwed ≥ 0, as claimed; but
refundOrOwed equals estimatedWithholding minus the UNCLAMPED sum
federalTax + selfEmploymentTax − eitc (the clamp applies only to the
reported liability field). -/
theorem claim_C1_amended (req : TaxRequest) (r : TaxResult)
    (h : calcEndpoint req = some r) :
    r.totalTaxLiability =
      max 0 (r.federalIncomeTax + r.selfEmploymentTax - r.earnedIncomeCredit) ∧
    r.refundAmount =
      r.estimatedWithholding -
        (r.federalIncomeTax + r.selfEmploymentTax - r.earnedIncomeCredit) ∧
    r.refundType = (if 0 ≤ r.refundAmount then "refund" else "owed") := by
  have hr := calcEndpoint_some h
  subst hr
  exact ⟨buildResult_totalTaxLiability _ _, buildResult_refundAmount _ _,
    buildResult_refundType _ _⟩

/-- Witness for claim C1 (amended): the married scenario request passes
validation and the three equations hold on its result. -/
theorem claim_C1_witness :
    ∃ r, calcEndpoint reqMarriedKids = some r ∧
      (r.totalTaxLiability =
        max 0 (r.federalIncomeTax + r.selfEmploymentTax - r.earnedIncomeCredit) ∧
      r.refundAmount =
        r.estimatedWithholding -
          (r.federalIncomeTax + r.selfEmploymentTax - r.earnedIncomeCredit) ∧
      r.refundType = (if 0 ≤ r.refundAmount then "refund" else "owed")) :=
  ⟨buildResult "married" reqMarriedKids, rfl,
    claim_C1_amended reqMarriedKids (buildResult "married" reqMarriedKids) rfl⟩

/-- Claim C2 counterexample: the married scenario yields refundOrOwed
12374, not the claimed +6000. -/
theorem claim_C2_cx :
    ∃ r, calcEndpoint reqMarriedKids = some r ∧
      r.refundAmount = 12374 ∧ ¬(r.refundAmount = 6000) := by
  obtain ⟨_, _, _, _, _, _, _, href, _⟩ := marriedScenario_eval
  refine ⟨buildResult "married" reqMarriedKids, rfl, href, ?_⟩
  rw [href]
  norm_num

/-- Claim C2 (amended, corrected): the married scenario (income "0",
w2Income "30000", selfEmploymentIncome "0", 2 dependents) produces
totalGrossIncome 30000, eitc 6604, deduction 27700, taxableIncome 2300,
federalTax 230, clamped liability 0 and withholding 6000 as claimed, but
refundOrOwed +12374 (type "refund"), not +6000. -/
theorem claim_C2_amended :
    ∃ r, calcEndpoint reqMarriedKids = some r ∧
      r.totalGrossIncome = 30000 ∧ r.earnedIncomeCredit = 6604 ∧
      r.deductionUsed = 27700 ∧ r.taxableIncome = 2300 ∧
      r.federalIncomeTax = 230 ∧ r.totalTaxLiability = 0 ∧
      r.estimatedWithholding = 6000 ∧ r.refundAmount = 12374 ∧
      r.refundType = "refund" :=
  ⟨buildResult "married" reqMarriedKids, rfl, marriedScenario_eval⟩

/-- Claim C3 counterexample: the single 50000 scenario computes
federalTax 4117.98 (the bracket widths are max − min + 1, so 11001 at 10%
and 25149 at 12%), not the claimed 4118.00. -/
theorem claim_C3_cx :
    ∃ r, calcEndpoint reqSingle50k = some r ∧
      r.federalIncomeTax = 411798/100 ∧ ¬(r.federalIncomeTax = 4118) := by
  obtain ⟨_, _, hfed, _⟩ := singleScenario_eval
  refine ⟨buildResult "single" reqSingle50k, rfl, hfed, ?_⟩
  rw [hfed]
  norm_num

/-- Claim C3 (amended, corrected): the single scenario (income "50000",
age 30, no dependents, standard deduction) yields deduction 13850,
taxableIncome 36150, eitc 0, selfEmploymentTax 0, withholding 0 as
claimed, but federalTax 4117.98, liability 4117.98 and refundOrOwed
−4117.98 (type "owed"), not 4118.00/−4118.00. -/
theorem claim_C3_amended :
    ∃ r, calcEndpoint reqSingle50k = some r ∧
      r.deductionUsed = 13850 ∧ r.taxableIncome = 36150 ∧
      r.federalIncomeTax = 411798/100 ∧ r.earnedIncomeCredit = 0 ∧
      r.selfEmploymentTax = 0 ∧ r.totalTaxLiability = 411798/100 ∧
      r.estimatedWithholding = 0 ∧ r.refundAmount = -(411798/100) ∧
      r.refundType = "owed" :=
  ⟨buildResult "single" reqSingle50k, rfl, singleScenario_eval⟩

/-- Claim C5 counterexample: the source does not clamp the dependent
count from below: at income 0, single, children −1 the code pays 0,
while the claimed clamp to [0,3] would select the 0-children row and pay
600. -/
theorem claim_C5_cx :
    calculateEITC 0 "single" (-1) = 0 ∧
    claimedEITC 0 "single" (-1) = 600 ∧
    calculateEITC 0 "single" (-1) ≠ claimedEITC 0 "single" (-1) := by
  have h1 : calculateEITC 0 "single" (-1) = 0 := by
    norm_num [calculateEITC, eitcLimits, min_def]
  have h2 : claimedEITC 0 "single" (-1) = 600 := by
    norm_num [claimedEITC, min_def, max_def,
      show ("single" : String) ≠ "married" from by decide]
  refine ⟨h1, h2, ?_⟩
  rw [h1, h2]
  norm_num

/-- Claim C5 (amended, corrected): the EITC clamps the dependent count
only from above (counts above 3, such as 5, behave exactly like 3, and
the rows, ceilings and married/other selection are as claimed), but a
NEGATIVE count selects no row and yields credit 0 instead of being
clamped up to the 0-children row. -/
theorem claim_C5_amended (income : ℚ) (fs : String) (children : ℤ) :
    calculateEITC income fs children = amendedEITC income fs children ∧
    calculateEITC income fs 5 = calculateEITC income fs 3 := by
  constructor
  · have hcase : children < 0 ∨ children = 0 ∨ children = 1 ∨ children = 2 ∨
        3 ≤ children := by omega
    rcases hcase with h | rfl | rfl | rfl | h
    · have hm : min children 3 = children := min_eq_left (by omega)
      have h0 : children ≠ 0 := by omega
      have h1 : children ≠ 1 := by omega
      have h2 : children ≠ 2 := by omega
      have h3 : children ≠ 3 := by omega
      simp [calculateEITC, amendedEITC, eitcLimits, hm, h0, h1, h2, h3, h]
    · norm_num [calculateEITC, amendedEITC, eitcLimits, min_def, ite_gt_swap]
    · norm_num [calculateEITC, amendedEITC, eitcLimits, min_def, ite_gt_swap]
    · norm_num [calculateEITC, amendedEITC, eitcLimits, min_def, ite_gt_swap]
    · have hm : min children 3 = 3 := min_eq_right h
      have hneg : ¬(children < 0) := by omega
      norm_num [calculateEITC, amendedEITC, eitcLimits, hm, hneg, ite_gt_swap]
  · norm_num [calculateEITC, min_def]

/-- Claim C6 (confirmed): the deduction used is
max(itemized, standard) exactly under the flag value "false", the
standard deduction under every other flag value (absence included), and
is never below the standard deduction. -/
theorem claim_C6_deduction_election (req : TaxRequest) (r : TaxResult)
    (h : calcEndpoint req = some r) :
    (req.useStandardDeduction = some ("false") →
      r.deductionUsed = max r.itemizedDeductions r.standardDeduction) ∧
    (req.useStandardDeduction ≠ some ("false") →
      r.deductionUsed = r.standardDeduction) ∧
    r.standardDeduction ≤ r.deductionUsed := by
  have hr := calcEndpoint_some h
  subst hr
  refine ⟨?_, ?_, ?_⟩
  · intro hflag
    rw [buildResult_deductionUsed, if_pos hflag]
  · intro hflag
    rw [buildResult_deductionUsed, if_neg hflag]
  · rw [buildResult_deductionUsed]
    split
    · exact le_max_right _ _
    · exact le_rfl

/-- Witness for claim C6: electing itemized deductions of 5000 against a
13850 standard deduction uses 13850 — the maximum, never below the
standard amount. -/
theorem claim_C6_witness :
    ∃ r, calcEndpoint reqItemizedSmall = some r ∧
      r.deductionUsed = max r.itemizedDeductions r.standardDeduction ∧
      r.standardDeduction ≤ r.deductionUsed ∧
      r.itemizedDeductions = 5000 ∧ r.standardDeduction = 13850 ∧
      r.deductionUsed = 13850 := by
  have hmain := claim_C6_deduction_election reqItemizedSmall
    (buildResult "single" reqItemizedSmall) rfl
  have hitem : (buildResult "single" reqItemizedSmall).itemizedDeductions = 5000 := rfl
  have hstd : (buildResult "single" reqItemizedSmall).standardDeduction = 13850 := by
    rw [buildResult_standardDeduction,
      show jsIntOr0 reqItemizedSmall.age = 0 from rfl]
    norm_num [calculateStandardDeduction, standardDeductions]
  have hflag : reqItemizedSmall.useStandardDeduction = some ("false") := rfl
  have hded : (buildResult "single" reqItemizedSmall).deductionUsed = 13850 := by
    rw [hmain.1 hflag, hitem, hstd]
    norm_num [max_def]
  exact ⟨buildResult "single" reqItemizedSmall, rfl, hmain.1 hflag, hmain.2.2,
    hitem, hstd, hded⟩

/-- Claim C7 counterexample: a request whose filingStatus is present but
equal to the empty string — so neither mandatory field is absent — is
still rejected by the falsiness check. -/
theorem claim_C7_cx :
    calcEndpoint reqEmptyStatus = none ∧
    reqEmptyStatus.filingStatus ≠ none ∧ reqEmptyStatus.income ≠ none := by
  refine ⟨rfl, ?_, ?_⟩ <;> simp [reqEmptyStatus]

/-- Claim C7 (amended, corrected): the engine rejects with the validation
error exactly when filingStatus or income is absent OR the empty string
(JS falsiness); every other request — malformed numbers, unknown
statuses, oversized dependent counts included — produces a result and
never an error. -/
theorem claim_C7_amended (req : TaxRequest) :
    calcEndpoint req = none ↔
      (req.filingStatus = none ∨ req.filingStatus = some ("") ∨
        req.income = none ∨ req.income = some ("")) := by
  have hch : (jsFalsy req.filingStatus || jsFalsy req.income) = true ↔
      (req.filingStatus = none ∨ req.filingStatus = some ("") ∨
        req.income = none ∨ req.income = some ("")) := by
    rw [Bool.or_eq_true, jsFalsy_eq_true_iff, jsFalsy_eq_true_iff]
    tauto
  unfold calcEndpoint
  by_cases hb : (jsFalsy req.filingStatus || jsFalsy req.income) = true
  · rw [if_pos hb]
    exact iff_of_true rfl (hch.mp hb)
  · rw [if_neg hb]
    exact iff_of_false (by simp) (fun hrhs => hb (hch.mpr hrhs))

/-- Claim C8 counterexample: a supplied w2Income of "-5" parses to the
negative component −5 — the components are not forced non-negative. -/
theorem claim_C8_cx :
    ∃ r, calcEndpoint reqNegW2 = some r ∧ r.w2 = -5 ∧ ¬(0 ≤ r.w2) := by
  have hw : (buildResult "single" reqNegW2).w2 = -5 := rfl
  refine ⟨buildResult "single" reqNegW2, rfl, hw, ?_⟩
  rw [hw]
  norm_num

/-- Claim C8 (amended, corrected): each of the seven income components
equals the parsed value of its field, with absent or unparseable fields
defaulting to 0, and totalGrossIncome is the sum of all seven; but a
negative supplied value is kept, so the components are NOT guaranteed
non-negative. -/
theorem claim_C8_amended (req : TaxRequest) (r : TaxResult)
    (h : calcEndpoint req = some r) :
    r.primary = jsNumOr0 req.income ∧
    r.w2 = jsNumOr0 req.w2Income ∧
    r.selfEmployment = jsNumOr0 req.selfEmploymentIncome ∧
    r.interest = jsNumOr0 req.interestIncome ∧
    r.dividends = jsNumOr0 req.dividendIncome ∧
    r.capitalGains = jsNumOr0 req.capitalGains ∧
    r.other = jsNumOr0 req.otherIncome ∧
    (req.w2Income = none → r.w2 = 0) ∧
    r.totalGrossIncome =
      r.primary + r.w2 + r.selfEmployment + r.interest + r.dividends +
        r.capitalGains + r.other := by
  have hr := calcEndpoint_some h
  subst hr
  refine ⟨rfl, rfl, rfl, rfl, rfl, rfl, rfl, ?_, rfl⟩
  intro hw
  rw [buildResult_w2, hw]
  rfl

/-- Witness for claim C8 (amended): the request with w2Income "-5" passes
validation, its gross income is the (signed) sum 100 + (−5) = 95. -/
theorem claim_C8_witness :
    ∃ r, calcEndpoint reqNegW2 = some r ∧
      r.totalGrossIncome =
        r.primary + r.w2 + r.selfEmployment + r.interest + r.dividends +
          r.capitalGains + r.other ∧
      r.totalGrossIncome = 95 := by
  have hm := claim_C8_amended reqNegW2 (buildResult "single" reqNegW2) rfl
  have hg : (buildResult "single" reqNegW2).totalGrossIncome = 95 := by
    rw [buildResult_totalGrossIncome,
      show jsNumOr0 reqNegW2.income = 100 from rfl,
      show jsNumOr0 reqNegW2.w2Income = -5 from rfl,
      show jsNumOr0 reqNegW2.selfEmploymentIncome = 0 from rfl,
      show jsNumOr0 reqNegW2.interestIncome = 0 from rfl,
      show jsNumOr0 reqNegW2.dividendIncome = 0 from rfl,
      show jsNumOr0 reqNegW2.capitalGains = 0 from rfl,
      show jsNumOr0 reqNegW2.otherIncome = 0 from rfl]
    norm_num
  exact ⟨buildResult "single" reqNegW2, rfl, hm.2.2.2.2.2.2.2.2, hg⟩

/-- Claim C10 (confirmed): only the federal income tax is rounded (it is
always a whole number of cents); selfEmploymentTax, estimatedWithholding,
the clamped liability and refundOrOwed are the raw unrounded expressions. -/
theorem claim_C10_rounding (req : TaxRequest) (r : TaxResult)
    (h : calcEndpoint req = some r) :
    (∃ n : ℤ, r.federalIncomeTax = (n : ℚ) / 100) ∧
    r.selfEmploymentTax = r.selfEmployment * 0.1413 ∧
    r.estimatedWithholding = r.w2 * 0.20 ∧
    r.totalTaxLiability =
      max 0 (r.federalIncomeTax + r.selfEmploymentTax - r.earnedIncomeCredit) ∧
    r.refundAmount =
      r.estimatedWithholding -
        (r.federalIncomeTax + r.selfEmploymentTax - r.earnedIncomeCredit) := by
  have hr := calcEndpoint_some h
  subst hr
  refine ⟨?_, buildResult_selfEmploymentTax _ _, buildResult_estimatedWithholding _ _,
    buildResult_totalTaxLiability _ _, buildResult_refundAmount _ _⟩
  rw [buildResult_federalIncomeTax]
  exact calculateTax_cents _ _ _

/-- Witness for claim C10: with one unit of self-employment income the
self-employment tax is 0.1413, which is not a whole number of cents —
confirming it is returned unrounded — while the federal tax is. -/
theorem claim_C10_witness :
    ∃ r, calcEndpoint reqSelfEmp1 = some r ∧
      r.selfEmploymentTax = r.selfEmployment * 0.1413 ∧
      r.selfEmploymentTax = 1413/10000 ∧
      ¬(∃ n : ℤ, r.selfEmploymentTax = (n : ℚ) / 100) ∧
      (∃ n : ℤ, r.federalIncomeTax = (n : ℚ) / 100) := by
  have hm := claim_C10_rounding reqSelfEmp1 (buildResult "single" reqSelfEmp1) rfl
  have hse : (buildResult "single" reqSelfEmp1).selfEmploymentTax = 1413/10000 := by
    rw [buildResult_selfEmploymentTax,
      show (buildResult "single" reqSelfEmp1).selfEmployment = 1 from rfl]
    norm_num
  refine ⟨buildResult "single" reqSelfEmp1, rfl, hm.2.1, hse, ?_, hm.1⟩
  rintro ⟨n, hn⟩
  rw [hse] at hn
  have h2 : (1413 : ℚ) = (n : ℚ) * 100 := by
    field_simp at hn
    linarith
  have h3 : (1413 : ℤ) = n * 100 := by exact_mod_cast h2
  omega

/-- Claim C4 (confirmed): the bracket-tax function computes
`taxableIncome = max(0, income − deductions)`, walks the married table for
"married" and the single table for every other status accumulating
`min(remaining, upper − lower + 1)` at each bracket's rate with early
stop, rounds half-up to cents (this is the equality with
`specCalculateTax`, the transliteration of the claim's wording); it is
never negative; income ≤ deductions yields 0; and income beyond all
finite brackets is taxed at the top 37% rate for the remainder (closed
forms for both tables). -/
theorem claim_C4_bracket_tax_conformance (income : ℚ) (fs : String) (ded : ℚ) :
    calculateTax income fs ded = specCalculateTax income fs ded ∧
    0 ≤ calculateTax income fs ded ∧
    (income ≤ ded → calculateTax income fs ded = 0) ∧
    (fs ≠ "married" → 578126 ≤ income - ded →
      calculateTax income fs ded =
        specRoundCents (17424235/100 + 37/100 * (income - ded - 578126))) ∧
    (fs = "married" → 693751 ≤ income - ded →
      calculateTax income fs ded =
        specRoundCents (1866016/10 + 37/100 * (income - ded - 693751))) := by
  refine ⟨?_, calculateTax_nonneg income fs ded, ?_, ?_, ?_⟩
  · simp only [specCalculateTax]
    rw [calculateTax_eq_round, bracketLoop_eq_spec _ (goodTable_lookup fs), brackets_lookup]
  · intro h
    rw [calculateTax_eq_round]
    have hmax : max 0 (income - ded) = 0 := max_eq_left (by linarith)
    rw [hmax, bracketLoop_zero, specRoundCents_zero]
  · intro hfs hge
    rw [calculateTax_eq_round, brackets_lookup, if_neg hfs]
    have hmax : max 0 (income - ded) = income - ded := max_eq_right (by linarith)
    rw [hmax, bracketLoop_top singleTopShape _ (by linarith)]
  · intro hfs hge
    rw [calculateTax_eq_round, brackets_lookup, if_pos hfs]
    have hmax : max 0 (income - ded) = income - ded := max_eq_right (by linarith)
    rw [hmax, bracketLoop_top marriedTopShape _ (by linarith)]

/-- Witness for claim C4: the implications are discharged at concrete
inputs (deduction exceeding income; incomes beyond the last finite
bracket of each table). -/
theorem claim_C4_witness :
    calculateTax 100 "headOfHousehold" 200 = 0 ∧
    calculateTax 700000 "single" 0 =
      specRoundCents (17424235/100 + 37/100 * (700000 - 0 - 578126)) ∧
    calculateTax 800000 "married" 0 =
      specRoundCents (1866016/10 + 37/100 * (800000 - 0 - 693751)) :=
  ⟨(claim_C4_bracket_tax_conformance 100 "headOfHousehold" 200).2.2.1 (by norm_num),
   (claim_C4_bracket_tax_conformance 700000 "single" 0).2.2.2.1 (by decide) (by norm_num),
   (claim_C4_bracket_tax_conformance 800000 "married" 0).2.2.2.2 rfl (by norm_num)⟩

/-- Claim C9 counterexample: the rounded tax is NOT Lipschitz with
constant equal to the top marginal rate: from income 0.04 to 0.06
(single, no deductions) the tax jumps a full cent, exceeding
0.37 × 0.02. -/
theorem claim_C9_cx :
    calculateTax (4/100) "single" 0 = 0 ∧
    calculateTax (6/100) "single" 0 = 1/100 ∧
    ¬(calculateTax (6/100) "single" 0 - calculateTax (4/100) "single" 0 ≤
        37/100 * (6/100 - 4/100)) := by
  have e4 : calculateTax (4/100) "single" 0 = 0 := by
    norm_num [calculateTax, taxBrackets, bracketLoop, bracketAmt, singleBrackets,
      jsRound, min_def, max_def]
  have e6 : calculateTax (6/100) "single" 0 = 1/100 := by
    norm_num [calculateTax, taxBrackets, bracketLoop, bracketAmt, singleBrackets,
      jsRound, min_def, max_def]
  refine ⟨e4, e6, ?_⟩
  rw [e4, e6]
  norm_num

/-- Claim C9 (amended, corrected): for fixed filing status and deduction,
the rounded bracket tax is non-negative and monotone in income; the
UNROUNDED accumulated tax satisfies the exact top-marginal-rate Lipschitz
bound, and the rounded tax satisfies it up to one cent of rounding
quantisation. -/
theorem claim_C9_amended (fs : String) (ded t d : ℚ) (ht : 0 ≤ t) (hd : 0 ≤ d) :
    0 ≤ calculateTax t fs ded ∧
    calculateTax t fs ded ≤ calculateTax (t + d) fs ded ∧
    bracketLoop ((taxBrackets fs).getD singleBrackets) (max 0 (t + d - ded)) -
      bracketLoop ((taxBrackets fs).getD singleBrackets) (max 0 (t - ded)) ≤ 37/100 * d ∧
    calculateTax (t + d) fs ded - calculateTax t fs ded ≤ 37/100 * d + 1/100 := by
  have hg := goodTable_lookup fs
  have hTmono : max 0 (t - ded) ≤ max 0 (t + d - ded) :=
    max_le_max le_rfl (by linarith)
  have hT0 : (0:ℚ) ≤ max 0 (t - ded) := le_max_left _ _
  have hlip := bracketLoop_lipschitz (by norm_num : (0:ℚ) ≤ 37/100) _ hg _ _ hT0 hTmono
  have hdle : max 0 (t + d - ded) - max 0 (t - ded) ≤ d := by
    rcases le_total (t - ded) 0 with hc | hc
    · rw [max_eq_left hc]
      rcases le_total (t + d - ded) 0 with hc2 | hc2
      · rw [max_eq_left hc2]
        linarith
      · rw [max_eq_right hc2]
        linarith
    · rw [max_eq_right hc, max_eq_right (by linarith : (0:ℚ) ≤ t + d - ded)]
      linarith
  have hwalk : bracketLoop ((taxBrackets fs).getD singleBrackets) (max 0 (t + d - ded)) -
      bracketLoop ((taxBrackets fs).getD singleBrackets) (max 0 (t - ded)) ≤ 37/100 * d := by
    have h2 : 37/100 * (max 0 (t + d - ded) - max 0 (t - ded)) ≤ 37/100 * d :=
      mul_le_mul_of_nonneg_left hdle (by norm_num)
    linarith
  refine ⟨calculateTax_nonneg t fs ded, calculateTax_mono fs ded (by linarith), hwalk, ?_⟩
  rw [calculateTax_eq_round, calculateTax_eq_round]
  have hround := specRoundCents_lip
    (bracketLoop ((taxBrackets fs).getD singleBrackets) (max 0 (t - ded)))
    (bracketLoop ((taxBrackets fs).getD singleBrackets) (max 0 (t + d - ded)))
  linarith

/-- Witness for claim C9 (amended), at single status, no deduction,
income 0 increased by 1. -/
theorem claim_C9_witness :
    0 ≤ calculateTax 0 "single" 0 ∧
    calculateTax 0 "single" 0 ≤ calculateTax (0 + 1) "single" 0 ∧
    bracketLoop ((taxBrackets "single").getD singleBrackets) (max 0 (0 + 1 - 0)) -
      bracketLoop ((taxBrackets "single").getD singleBrackets) (max 0 (0 - 0)) ≤ 37/100 * 1 ∧
    calculateTax (0 + 1) "single" 0 - calculateTax 0 "single" 0 ≤ 37/100 * 1 + 1/100 :=
  claim_C9_amended "single" 0 0 1 le_rfl (by norm_num)

end TaxCalc
